import Mathlib

/-!
Shallow embedding of `src/app.js` (record-api): an Express service that maps a
flat record payload to Notion page properties and proxies four CRUD endpoints.

Form fields arriving in `req.body` may be absent (JavaScript `undefined`), so
every payload field is an `Option String`.  The inline properties objects of the
POST and PUT handlers (app.js lines 133-144 and 212-223) are transcribed as
`createProperties` and `updateProperties`.  The remote Notion SDK is modelled as
an oracle `RemoteCall → Except JsError PageObj` supplied to each handler; a
handler returns the remote call it issues together with the HTTP response it
writes.
-/

/-- One element of a Notion rich-text / title array as built by the handlers:
`[{ text: { content: X } }]`.  Only the content is represented; it is an
`Option String` because the handlers forward possibly-undefined form fields. -/
abbrev TextItem := Option String

/-- An entry of a Notion `files` array as built at app.js lines 142 and 221:
`{ type: "external", name: "Campaign Image", external: { url } }`. -/
structure ExternalFileRef where
  type : String
  name : String
  url : String
  deriving Repr, DecidableEq

/-- The typed Notion property values this service produces (number, title,
rich_text, date with only a start bound, select, files). -/
inductive PropValue where
  | number (value : Option Int)
  | title (items : List TextItem)
  | rich_text (items : List TextItem)
  | date (start : Option String)
  | select (name : Option String)
  | files (value : List ExternalFileRef)
  deriving Repr, DecidableEq

/-- A Notion properties object: an ordered association list from property
names to typed values, mirroring the literal object in the source. -/
abbrev PropertyMap := List (String × PropValue)

/-- Look a property up by name in a property map. -/
def lookupProp (key : String) : PropertyMap → Option PropValue
  | [] => none
  | (k, v) :: rest => if k = key then some v else lookupProp key rest

/-- The destructured `req.body` of the POST/PUT handlers (app.js lines 128 and
207).  `where_` stands for the JS field `where`, a reserved word in Lean. -/
structure Body where
  id : Option String
  company : Option String
  campaign : Option String
  content : Option String
  description : Option String
  plannedDate : Option String
  where_ : Option String
  language : Option String
  imageContent : Option String
  deriving Repr, DecidableEq

/-- Drop the JavaScript whitespace a leading `parseInt` skips. -/
def dropLeadingSpaces : List Char → List Char
  | [] => []
  | c :: cs =>
    if c = ' ' ∨ c = '\t' ∨ c = '\n' ∨ c = '\r' then dropLeadingSpaces cs
    else c :: cs

/-- The maximal run of leading decimal digits. -/
def takeDigits : List Char → List Char
  | [] => []
  | c :: cs => if c.isDigit then c :: takeDigits cs else []

/-- Decimal value of a digit list. -/
def digitsVal (l : List Char) : Nat :=
  l.foldl (fun n c => n * 10 + (c.toNat - 48)) 0

/-- JavaScript `parseInt(s)` with the default radix 10: skip leading
whitespace, read an optional sign and then the longest run of decimal digits;
`none` models the `NaN` result when no digit is found. -/
def parseIntJS (s : String) : Option Int :=
  let t := dropLeadingSpaces s.data
  match t with
  | '-' :: cs =>
      let ds := takeDigits cs
      if ds.isEmpty then none else some (-(digitsVal ds : Int))
  | '+' :: cs =>
      let ds := takeDigits cs
      if ds.isEmpty then none else some (digitsVal ds : Int)
  | cs =>
      let ds := takeDigits cs
      if ds.isEmpty then none else some (digitsVal ds : Int)

/-- JavaScript `a || dflt` on an optional string: `undefined` and the empty
string are falsy, every other string is returned unchanged.  Models
`imageContent || ''` at app.js lines 143 and 222. -/
def jsStringOr (a : Option String) (dflt : String) : String :=
  match a with
  | none => dflt
  | some s => if s = "" then dflt else s

/-- `parseInt(id)` where `id` may be undefined: `parseInt(undefined)` is
`NaN`, modelled as `none`. -/
def parseIdField (id : Option String) : Option Int :=
  id.bind parseIntJS

/-- Basename of a path: the portion after the last `/` (node `path` module
behaviour on posix paths). -/
def baseNameOf (l : List Char) : List Char :=
  l.foldl (fun acc c => if c = '/' then [] else acc ++ [c]) []

/-- The suffix of a name starting at its last `.`, if any. -/
def lastDotSuffix : List Char → Option (List Char)
  | [] => none
  | '.' :: cs =>
      match lastDotSuffix cs with
      | some e => some e
      | none => some ('.' :: cs)
  | _ :: cs => lastDotSuffix cs

/-- node `path.extname`: the extension of the basename, from its last `.` to
the end; empty when there is no `.` past the first character. -/
def extname (s : String) : String :=
  match baseNameOf s.data with
  | [] => ""
  | c0 :: rest =>
      if c0 = '.' then
        match lastDotSuffix rest with
        | some e => String.mk e
        | none => ""
      else
        match lastDotSuffix (c0 :: rest) with
        | some e => String.mk e
        | none => ""

/-- The multer diskStorage filename callback (app.js lines 17-19):
`Date.now() + path.extname(file.originalname)`; the JS `number + string`
coercion is decimal `toString` followed by concatenation. -/
def multerFilename (now : Nat) (originalname : String) : String :=
  toString now ++ extname originalname

/-- The multer diskStorage destination directory (app.js line 16). -/
def multerDestination : String := "Image/"

/-- The static mount of app.js line 99: `app.use('/Image', express.static('Image'))`
serves the upload directory under this URL path. -/
def imageStaticMount : String := "/Image"

/-- `req.file` after the multer middleware ran: the client's original filename
and the stored filename the diskStorage callback generated. -/
structure UploadedFile where
  originalname : String
  filename : String
  deriving Repr, DecidableEq

/-- The `imageUrl` expression of app.js lines 129 and 208:
`req.file ? protocol + '://' + host + '/uploads/' + req.file.filename : null`. -/
def imageUrlFor (protocol host : String) (file : Option UploadedFile) : Option String :=
  file.map (fun f => protocol ++ "://" ++ host ++ "/uploads/" ++ f.filename)

/-- The properties object of the POST /records handler (app.js lines 133-144). -/
def createProperties (b : Body) (imageUrl : Option String) : PropertyMap :=
  [ ("ID", PropValue.number (parseIdField b.id)),
    ("Company", PropValue.title [b.company]),
    ("Campaign", PropValue.rich_text [b.campaign]),
    ("Content", PropValue.rich_text [b.content]),
    ("Description", PropValue.rich_text [b.description]),
    ("PlannedDate", PropValue.date b.plannedDate),
    ("Where", PropValue.rich_text [b.where_]),
    ("Language", PropValue.select b.language),
    ("Image", PropValue.files
      (match imageUrl with
       | some u => [{ type := "external", name := "Campaign Image", url := u }]
       | none => [])),
    ("image content", PropValue.rich_text [some (jsStringOr b.imageContent "")]) ]

/-- The properties object of the PUT /records/:id handler (app.js lines
212-223), transcribed separately from its own source lines. -/
def updateProperties (b : Body) (imageUrl : Option String) : PropertyMap :=
  [ ("ID", PropValue.number (parseIdField b.id)),
    ("Company", PropValue.title [b.company]),
    ("Campaign", PropValue.rich_text [b.campaign]),
    ("Content", PropValue.rich_text [b.content]),
    ("Description", PropValue.rich_text [b.description]),
    ("PlannedDate", PropValue.date b.plannedDate),
    ("Where", PropValue.rich_text [b.where_]),
    ("Language", PropValue.select b.language),
    ("Image", PropValue.files
      (match imageUrl with
       | some u => [{ type := "external", name := "Campaign Image", url := u }]
       | none => [])),
    ("image content", PropValue.rich_text [some (jsStringOr b.imageContent "")]) ]

/-- The calls the handlers can place through the Notion SDK.  `createPage` is
`notion.pages.create`, `retrievePage` is `notion.pages.retrieve`, `updatePage`
is `notion.pages.update` (with optional properties and optional archived
flag), and `deletePage` is the SDK's hard block deletion endpoint, which this
service never invokes. -/
inductive RemoteCall where
  | createPage (databaseId : Option String) (properties : PropertyMap)
  | retrievePage (pageId : String)
  | updatePage (pageId : String) (properties : Option PropertyMap) (archived : Option Bool)
  | deletePage (blockId : String)
  deriving Repr, DecidableEq

/-- The raw remote page object a successful SDK call resolves to; opaque to
this service, which forwards it unmapped. -/
structure PageObj where
  raw : String
  deriving Repr, DecidableEq

/-- A thrown JavaScript error, as caught by the handlers; only `error.message`
is consumed. -/
structure JsError where
  message : String
  deriving Repr, DecidableEq

/-- The bodies this service writes: nothing (`res.send()` with no argument),
a forwarded page object (`res.json(response)`), or `{ error: message }`. -/
inductive RespBody where
  | empty
  | page (p : PageObj)
  | errorMsg (message : String)
  deriving Repr, DecidableEq

/-- An HTTP response: status code and body. -/
structure HttpResponse where
  status : Nat
  body : RespBody
  deriving Repr, DecidableEq

/-- The POST /records handler (app.js lines 126-150): build `imageUrl`, issue
`notion.pages.create` with the mapped properties, answer 201 with the remote
object, or 500 with the caught error's message. -/
def postRecords (b : Body) (file : Option UploadedFile) (protocol host : String)
    (databaseId : Option String) (remote : RemoteCall → Except JsError PageObj) :
    RemoteCall × HttpResponse :=
  let imageUrl := imageUrlFor protocol host file
  let call := RemoteCall.createPage databaseId (createProperties b imageUrl)
  (call,
    match remote call with
    | Except.ok p => { status := 201, body := RespBody.page p }
    | Except.error e => { status := 500, body := RespBody.errorMsg e.message })

/-- The GET /records/:id handler (app.js lines 171-178): pass-through
`notion.pages.retrieve`; 200 with the raw object or 500 with the error. -/
def getRecordById (pageId : String) (remote : RemoteCall → Except JsError PageObj) :
    RemoteCall × HttpResponse :=
  let call := RemoteCall.retrievePage pageId
  (call,
    match remote call with
    | Except.ok p => { status := 200, body := RespBody.page p }
    | Except.error e => { status := 500, body := RespBody.errorMsg e.message })

/-- The PUT /records/:id handler (app.js lines 205-229): issue
`notion.pages.update` with the mapped properties; 200 on success, 500 on a
caught error. -/
def putRecordById (pageId : String) (b : Body) (file : Option UploadedFile)
    (protocol host : String) (remote : RemoteCall → Except JsError PageObj) :
    RemoteCall × HttpResponse :=
  let imageUrl := imageUrlFor protocol host file
  let call := RemoteCall.updatePage pageId (some (updateProperties b imageUrl)) none
  (call,
    match remote call with
    | Except.ok p => { status := 200, body := RespBody.page p }
    | Except.error e => { status := 500, body := RespBody.errorMsg e.message })

/-- The DELETE /records/:id handler (app.js lines 250-260): issue
`notion.pages.update` with `archived: true` and no properties; 204 with an
empty body on success, 500 on a caught error. -/
def deleteRecordById (pageId : String) (remote : RemoteCall → Except JsError PageObj) :
    RemoteCall × HttpResponse :=
  let call := RemoteCall.updatePage pageId none (some true)
  (call,
    match remote call with
    | Except.ok _ => { status := 204, body := RespBody.empty }
    | Except.error e => { status := 500, body := RespBody.errorMsg e.message })

/-- A create/update request as it enters the middleware stack: the multer
diskStorage callback runs at submission time `now`, producing `req.file` from
the optional uploaded part's original name, before the handler body runs. -/
def handleCreate (b : Body) (origName : Option String) (now : Nat)
    (protocol host : String) (databaseId : Option String)
    (remote : RemoteCall → Except JsError PageObj) : RemoteCall × HttpResponse :=
  postRecords b (origName.map (fun o => { originalname := o, filename := multerFilename now o }))
    protocol host databaseId remote

/-- Same middleware-then-handler composition for PUT /records/:id. -/
def handleUpdate (pageId : String) (b : Body) (origName : Option String) (now : Nat)
    (protocol host : String) (remote : RemoteCall → Except JsError PageObj) :
    RemoteCall × HttpResponse :=
  putRecordById pageId b (origName.map (fun o => { originalname := o, filename := multerFilename now o }))
    protocol host remote

/-- The record schema's required fields (app.js line 88), present in a payload. -/
def RequiredPresent (b : Body) : Prop :=
  b.id.isSome ∧ b.company.isSome ∧ b.campaign.isSome ∧ b.content.isSome ∧
  b.description.isSome ∧ b.plannedDate.isSome ∧ b.where_.isSome ∧ b.language.isSome

instance (b : Body) : Decidable (RequiredPresent b) := by
  unfold RequiredPresent; infer_instance

/-- A valid Create payload: every required field is supplied and the id field
parses to an integer. -/
def ValidBody (b : Body) : Prop :=
  RequiredPresent b ∧ (parseIdField b.id).isSome

instance (b : Body) : Decidable (ValidBody b) := by
  unfold ValidBody; infer_instance

example : parseIntJS "42" = some 42 := by decide
example : parseIntJS "abc" = none := by decide
example : extname "photo.png" = ".png" := by decide
example : extname "noext" = "" := by decide
example : extname ".bashrc" = "" := by decide
example : multerFilename 1700000000000 "photo.png" = "1700000000000.png" := by decide

/-- A standard fully-supplied payload used to instantiate theorems with
hypotheses at a concrete input. -/
def sampleBody : Body :=
  { id := some "42", company := some "Acme", campaign := some "Launch",
    content := some "text", description := some "desc",
    plannedDate := some "2024-01-01", where_ := some "Facebook",
    language := some "English", imageContent := none }

/-- A payload missing the required `company` field (and every other field
supplied), showing the handlers perform no presence check. -/
def bodyMissingCompany : Body :=
  { id := some "1", company := none, campaign := some "Launch",
    content := some "text", description := some "desc",
    plannedDate := some "2024-01-01", where_ := some "Facebook",
    language := some "English", imageContent := none }

/-- Claim C1: for every valid Create payload the mapped property set contains
exactly the ten properties of §4.1 — numeric ID, title Company, rich-text
Campaign, Content and Description, date PlannedDate with only a start bound,
rich-text Where, select Language, files Image, rich-text image caption — with
the id field parsed from string to integer (input id "42" maps to number 42). -/
theorem create_props_exact_ten (b : Body) (url : Option String) (h : ValidBody b) :
    (createProperties b url).map Prod.fst =
      ["ID", "Company", "Campaign", "Content", "Description", "PlannedDate",
       "Where", "Language", "Image", "image content"]
    ∧ (∃ n : Int, parseIdField b.id = some n ∧
        lookupProp "ID" (createProperties b url) = some (PropValue.number (some n)))
    ∧ lookupProp "Company" (createProperties b url) = some (PropValue.title [b.company])
    ∧ lookupProp "Campaign" (createProperties b url) = some (PropValue.rich_text [b.campaign])
    ∧ lookupProp "Content" (createProperties b url) = some (PropValue.rich_text [b.content])
    ∧ lookupProp "Description" (createProperties b url) = some (PropValue.rich_text [b.description])
    ∧ lookupProp "PlannedDate" (createProperties b url) = some (PropValue.date b.plannedDate)
    ∧ lookupProp "Where" (createProperties b url) = some (PropValue.rich_text [b.where_])
    ∧ lookupProp "Language" (createProperties b url) = some (PropValue.select b.language)
    ∧ (∃ fs, lookupProp "Image" (createProperties b url) = some (PropValue.files fs))
    ∧ lookupProp "image content" (createProperties b url)
        = some (PropValue.rich_text [some (jsStringOr b.imageContent "")])
    ∧ parseIntJS "42" = some 42 := by
  obtain ⟨-, hid⟩ := h
  obtain ⟨n, hn⟩ := Option.isSome_iff_exists.mp hid
  refine ⟨rfl, ⟨n, hn, ?_⟩, rfl, rfl, rfl, rfl, rfl, rfl, rfl, ⟨_, rfl⟩, rfl, by decide⟩
  rw [show lookupProp "ID" (createProperties b url)
        = some (PropValue.number (parseIdField b.id)) from rfl, hn]

theorem create_props_exact_ten_witness :
    (createProperties sampleBody none).map Prod.fst =
      ["ID", "Company", "Campaign", "Content", "Description", "PlannedDate",
       "Where", "Language", "Image", "image content"] :=
  (create_props_exact_ten sampleBody none (by decide)).1

/-- Claim C2: for each of the four operations, an exception thrown by the
remote call is caught at the controller boundary and yields HTTP 500 with a
JSON body carrying the error's message; handlers are total, so no exception
escapes. -/
theorem handlers_catch_to_500 (b : Body) (file : Option UploadedFile)
    (protocol host pageId : String) (databaseId : Option String)
    (remote : RemoteCall → Except JsError PageObj) (e : JsError)
    (h : ∀ c, remote c = Except.error e) :
    (postRecords b file protocol host databaseId remote).2
      = { status := 500, body := RespBody.errorMsg e.message }
    ∧ (getRecordById pageId remote).2
      = { status := 500, body := RespBody.errorMsg e.message }
    ∧ (putRecordById pageId b file protocol host remote).2
      = { status := 500, body := RespBody.errorMsg e.message }
    ∧ (deleteRecordById pageId remote).2
      = { status := 500, body := RespBody.errorMsg e.message } := by
  refine ⟨?_, ?_, ?_, ?_⟩ <;>
    simp [postRecords, getRecordById, putRecordById, deleteRecordById, h]

theorem handlers_catch_to_500_witness :
    (deleteRecordById "abc" (fun _ => Except.error { message := "boom" })).2
      = { status := 500, body := RespBody.errorMsg "boom" } :=
  (handlers_catch_to_500 sampleBody none "http" "localhost:3000" "abc" (some "db")
      (fun _ => Except.error { message := "boom" }) { message := "boom" }
      (fun _ => rfl)).2.2.2

/-- Claim C3: without an attached image the mapped Image property of both the
Create and the Update mapping is the empty files list; with an attached image
it is exactly one external-file reference whose URL is
scheme://host/uploads/filename. -/
theorem image_files_mapping (b : Body) (protocol host : String) (f : UploadedFile) :
    lookupProp "Image" (createProperties b (imageUrlFor protocol host none))
      = some (PropValue.files [])
    ∧ lookupProp "Image" (updateProperties b (imageUrlFor protocol host none))
      = some (PropValue.files [])
    ∧ lookupProp "Image" (createProperties b (imageUrlFor protocol host (some f)))
      = some (PropValue.files
          [{ type := "external", name := "Campaign Image",
             url := protocol ++ "://" ++ host ++ "/uploads/" ++ f.filename }])
    ∧ lookupProp "Image" (updateProperties b (imageUrlFor protocol host (some f)))
      = some (PropValue.files
          [{ type := "external", name := "Campaign Image",
             url := protocol ++ "://" ++ host ++ "/uploads/" ++ f.filename }]) :=
  ⟨rfl, rfl, rfl, rfl⟩

/-- Claim C4: the Delete operation issues a remote update setting the archive
flag to true, never the SDK's hard deletion call, and answers 204 with an
empty body on success. -/
theorem delete_is_archive (pageId : String)
    (remote : RemoteCall → Except JsError PageObj) (p : PageObj)
    (h : remote (RemoteCall.updatePage pageId none (some true)) = Except.ok p) :
    (deleteRecordById pageId remote).1 = RemoteCall.updatePage pageId none (some true)
    ∧ (∀ x, (deleteRecordById pageId remote).1 ≠ RemoteCall.deletePage x)
    ∧ (deleteRecordById pageId remote).2 = { status := 204, body := RespBody.empty } := by
  refine ⟨rfl, ?_, ?_⟩
  · intro x hx
    exact RemoteCall.noConfusion hx
  · simp [deleteRecordById, h]

theorem delete_is_archive_witness :
    (deleteRecordById "abc" (fun _ => Except.ok { raw := "p" })).2
      = { status := 204, body := RespBody.empty } :=
  (delete_is_archive "abc" (fun _ => Except.ok { raw := "p" }) { raw := "p" } rfl).2.2

/-- Claim C5 (code evaluated at the failing input): the stored name is
timestamp plus original extension as claimed, but the produced URL uses the
fixed path segment /uploads/ while the static mount that actually serves the
upload directory is /Image, so the URL is not built from the mount under
which uploaded images are served. -/
theorem upload_url_not_under_static_mount :
    multerFilename 1700000000000 "photo.png" = "1700000000000.png"
    ∧ imageUrlFor "http" "localhost:3000"
        (some { originalname := "photo.png", filename := "1700000000000.png" })
      = some "http://localhost:3000/uploads/1700000000000.png"
    ∧ imageStaticMount = "/Image"
    ∧ imageUrlFor "http" "localhost:3000"
        (some { originalname := "photo.png", filename := "1700000000000.png" })
      ≠ some ("http" ++ "://" ++ "localhost:3000" ++ imageStaticMount ++ "/" ++ "1700000000000.png") := by
  refine ⟨by decide, rfl, rfl, by decide⟩

/-- Claim C6, counterexample: a Create request whose payload lacks the
required `company` field still makes the handler issue the remote create
call, so required-field presence does not hold at the moment the call is
issued. -/
theorem create_call_despite_missing_field :
    (postRecords bodyMissingCompany none "http" "localhost:3000" (some "db")
        (fun _ => Except.ok { raw := "page" })).1
      = RemoteCall.createPage (some "db") (createProperties bodyMissingCompany none)
    ∧ ¬ RequiredPresent bodyMissingCompany :=
  ⟨rfl, by decide⟩

/-- Claim C6 as amended: Create and Update issue their remote call for every
payload, with no required-field presence check; absent fields are forwarded
into the mapped properties as undefined content. -/
theorem create_update_calls_unconditional (b : Body) (file : Option UploadedFile)
    (protocol host pageId : String) (databaseId : Option String)
    (remote : RemoteCall → Except JsError PageObj) :
    (postRecords b file protocol host databaseId remote).1
      = RemoteCall.createPage databaseId (createProperties b (imageUrlFor protocol host file))
    ∧ (putRecordById pageId b file protocol host remote).1
      = RemoteCall.updatePage pageId
          (some (updateProperties b (imageUrlFor protocol host file))) none :=
  ⟨rfl, rfl⟩

/-- Claim C7: in both mappings the enumerated platform field `where` becomes a
free rich-text property, never a select, while `language` becomes a select
property matched by name. -/
theorem where_rich_text_language_select (b : Body) (url : Option String) :
    lookupProp "Where" (createProperties b url) = some (PropValue.rich_text [b.where_])
    ∧ (∀ v, lookupProp "Where" (createProperties b url) ≠ some (PropValue.select v))
    ∧ lookupProp "Language" (createProperties b url) = some (PropValue.select b.language)
    ∧ lookupProp "Where" (updateProperties b url) = some (PropValue.rich_text [b.where_])
    ∧ (∀ v, lookupProp "Where" (updateProperties b url) ≠ some (PropValue.select v))
    ∧ lookupProp "Language" (updateProperties b url) = some (PropValue.select b.language) := by
  refine ⟨rfl, ?_, rfl, rfl, ?_, rfl⟩
  · intro v h
    rw [show lookupProp "Where" (createProperties b url)
          = some (PropValue.rich_text [b.where_]) from rfl] at h
    exact PropValue.noConfusion (Option.some.inj h)
  · intro v h
    rw [show lookupProp "Where" (updateProperties b url)
          = some (PropValue.rich_text [b.where_]) from rfl] at h
    exact PropValue.noConfusion (Option.some.inj h)

/-- Claim C8: when the caption field imageContent is absent the mapped image
caption rich-text content is the empty string, in both mappings; when it is
present it is the given caption text. -/
theorem image_caption_defaults (b : Body) (url : Option String) (s : String) :
    lookupProp "image content" (createProperties { b with imageContent := none } url)
      = some (PropValue.rich_text [some ""])
    ∧ lookupProp "image content" (createProperties { b with imageContent := some s } url)
      = some (PropValue.rich_text [some s])
    ∧ lookupProp "image content" (updateProperties { b with imageContent := none } url)
      = some (PropValue.rich_text [some ""])
    ∧ lookupProp "image content" (updateProperties { b with imageContent := some s } url)
      = some (PropValue.rich_text [some s]) := by
  have hs : jsStringOr (some s) "" = s := by
    by_cases h : s = "" <;> simp [jsStringOr, h]
  refine ⟨rfl, ?_, rfl, ?_⟩
  · rw [show lookupProp "image content" (createProperties { b with imageContent := some s } url)
          = some (PropValue.rich_text [some (jsStringOr (some s) "")]) from rfl, hs]
  · rw [show lookupProp "image content" (updateProperties { b with imageContent := some s } url)
          = some (PropValue.rich_text [some (jsStringOr (some s) "")]) from rfl, hs]

/-- Claim C9: the Create mapping and the Update mapping are the same function
of the payload and the image-upload outcome. -/
theorem createProperties_eq_updateProperties (b : Body) (url : Option String) :
    createProperties b url = updateProperties b url :=
  rfl

/-- Claim C10: with no attached image the mapping is deterministic — two runs
of the same request at different submission times produce the same remote
call and response; only the attached-image branch depends on the submission
time, through the generated filename. -/
theorem mapping_deterministic_without_image (b : Body)
    (protocol host pageId : String) (databaseId : Option String)
    (remote : RemoteCall → Except JsError PageObj) (t1 t2 : Nat) :
    handleCreate b none t1 protocol host databaseId remote
      = handleCreate b none t2 protocol host databaseId remote
    ∧ handleUpdate pageId b none t1 protocol host remote
      = handleUpdate pageId b none t2 protocol host remote
    ∧ multerFilename 1 "a.png" ≠ multerFilename 2 "a.png" :=
  ⟨rfl, rfl, by decide⟩
